import Mathlib

/-!
Shallow embedding of `src/spotify_bot.py`: a Telegram chat bot that relays
music queries to the Spotify catalog API and formats the results as
MarkdownV2 captions.  Handlers are modelled as pure functions from their
inputs (command arguments, message text, and the catalog responses, the
latter wrapped in `Except` to model exceptions raised by the API client)
to the pair of the outbound message trace and the list of catalog calls
issued.  Randomness (seed letter, pagination offset) is passed in as an
explicit parameter.
-/

/-- An outbound Telegram message: a plain text reply or a photo with a
caption (`reply_text` / `send_photo`). -/
inductive OutMsg where
  | text (body : String)
  | photo (url : String) (caption : String)
deriving DecidableEq

/-- One call to the Spotify catalog API, with the arguments the bot passes. -/
inductive CatCall where
  | search (q : String) (ty : String) (limit : Nat) (offset : Nat)
  | album (id : String)
  | new_releases (limit : Nat)
  | artist_albums (id : String) (album_type : String) (limit : Nat)
  | artist_top_tracks (id : String) (country : String)
  | artist_related_artists (id : String)
deriving DecidableEq

/-- The characters `telegram.helpers.escape_markdown` escapes for
`version=2` (default entity type): backslash and `_*[]()~\x60>#+-=|\x7b\x7d.!`. -/
def escapeCharsV2 : List Char :=
  ['\\', '_', '*', '[', ']', '(', ')', '~', '`', '>', '#', '+', '-', '=', '|',
   '{', '}', '.', '!']

/-- One step of `escape_markdown` version 2: a special character is prefixed
with a backslash, any other character is kept as is. -/
def escape_char_v2 (c : Char) : List Char :=
  if c ∈ escapeCharsV2 then ['\\', c] else [c]

/-- `telegram.helpers.escape_markdown(text, version=2)`. -/
def escape_markdown (s : String) : String :=
  String.mk (s.data.flatMap escape_char_v2)

/-- Python `sep.join(xs)`. -/
def join_sep (sep : String) : List String → String
  | [] => ""
  | [x] => x
  | x :: y :: xs => x ++ sep ++ join_sep sep (y :: xs)

/-- Python `x or y` on strings: `x` when truthy (non-empty), else `y`. -/
def py_or (x y : String) : String := if x = "" then y else x

/-- An artist record as the bot reads it from a Spotify response:
`name`, `id`, `genres`, `popularity`, `images` (list of image URLs) and
`external_urls['spotify']`. -/
structure ArtistRec where
  id : String
  name : String
  genres : List String
  popularity : Nat
  images : List String
  spotify_url : String
deriving DecidableEq

/-- An album record: `name`, `id`, artist names, `release_date`,
`total_tracks`, `genres`, `images` and `external_urls['spotify']`. -/
structure AlbumRec where
  id : String
  name : String
  artists : List String
  release_date : String
  total_tracks : Nat
  genres : List String
  images : List String
  spotify_url : String
deriving DecidableEq

/-- A track record: `name`, artist names, owning `album` and
`external_urls['spotify']`. -/
structure TrackRec where
  id : String
  name : String
  artists : List String
  album : AlbumRec
  spotify_url : String
deriving DecidableEq

/-- The caption built by `send_album_info`. -/
def send_album_info_caption (album : AlbumRec) : String :=
  let album_name := escape_markdown album.name
  let artists := escape_markdown (join_sep ", " album.artists)
  let release_date := escape_markdown album.release_date
  "💿 *Album:* " ++ album_name ++ "\n" ++
  "👤 *Artis:* " ++ artists ++ "\n" ++
  "🗓️ *Rilis:* " ++ release_date ++ "\n\n" ++
  "[Buka di Spotify](" ++ album.spotify_url ++ ")"

/-- `send_album_info`: photo with caption when the album has a cover image,
plain text otherwise. -/
def send_album_info (album : AlbumRec) : OutMsg :=
  match album.images with
  | url :: _ => OutMsg.photo url (send_album_info_caption album)
  | [] => OutMsg.text (send_album_info_caption album)

/-- The genre field of the artist caption:
`", ".join(artist['genres']) or "Tidak ada genre"`, escaped. -/
def artist_genres_field (artist : ArtistRec) : String :=
  escape_markdown (py_or (join_sep ", " artist.genres) "Tidak ada genre")

/-- The caption built by `send_artist_info`. -/
def send_artist_info_caption (artist : ArtistRec) : String :=
  let artist_name := escape_markdown artist.name
  let genres := artist_genres_field artist
  "🎤 *Artis:* " ++ artist_name ++ "\n" ++
  "🔥 *Popularitas:* " ++ toString artist.popularity ++ "/100\n" ++
  "🏷️ *Genre:* " ++ genres ++ "\n\n" ++
  "[Buka di Spotify](" ++ artist.spotify_url ++ ")"

/-- `send_artist_info`: photo with caption when the artist has a profile
image, plain text otherwise. -/
def send_artist_info (artist : ArtistRec) : OutMsg :=
  match artist.images with
  | url :: _ => OutMsg.photo url (send_artist_info_caption artist)
  | [] => OutMsg.text (send_artist_info_caption artist)

/-- The caption built by `send_track_info`. -/
def send_track_info_caption (track : TrackRec) : String :=
  let track_name := escape_markdown track.name
  let artists := escape_markdown (join_sep ", " track.artists)
  let album_name := escape_markdown track.album.name
  "🎵 *Lagu:* " ++ track_name ++ "\n" ++
  "👤 *Artis:* " ++ artists ++ "\n" ++
  "💿 *Album:* " ++ album_name ++ "\n\n" ++
  "[Buka di Spotify](" ++ track.spotify_url ++ ")"

/-- `send_track_info`: photo with caption when the track's album has a
cover image, plain text otherwise. -/
def send_track_info (track : TrackRec) : OutMsg :=
  match track.album.images with
  | url :: _ => OutMsg.photo url (send_track_info_caption track)
  | [] => OutMsg.text (send_track_info_caption track)

/-- `search_music`: the `/cari` handler, also bound to plain-text messages.
`args` models `context.args`, `message_text` models `update.message.text`
(empty string when absent), `search_res` the outcome of
`sp.search(q=query, limit=5, type='track')`. -/
def search_music (args : List String) (message_text : String)
    (search_res : Except String (List TrackRec)) : List OutMsg × List CatCall :=
  let query? : Option String :=
    if args.isEmpty then
      (if message_text = "" then none else some message_text)
    else some (join_sep " " args)
  match query? with
  | none =>
      ([OutMsg.text "Tolong berikan judul lagu atau nama artis untuk saya cari."], [])
  | some query =>
      let ack := OutMsg.text ("🔍 Mencari lagu '" ++ query ++ "' di Spotify...")
      let call := CatCall.search query "track" 5 0
      match search_res with
      | Except.error _ =>
          ([ack, OutMsg.text "Maaf, terjadi kesalahan saat berkomunikasi dengan Spotify. Coba lagi nanti."],
           [call])
      | Except.ok tracks =>
          if tracks.isEmpty then
            ([ack, OutMsg.text ("Maaf, saya tidak dapat menemukan lagu untuk *'" ++
                escape_markdown query ++ "'*\\. Coba kata kunci lain\\.")], [call])
          else
            (ack :: tracks.map send_track_info, [call])

/-- The genre field of the album-detail caption:
`", ".join(album['genres']) or "Tidak ada genre"`, escaped. -/
def album_genres_field (album : AlbumRec) : String :=
  escape_markdown (py_or (join_sep ", " album.genres) "Tidak ada genre")

/-- The detail caption built inside `get_album_details` from the album
fetched by id. -/
def get_album_details_caption (album : AlbumRec) : String :=
  let album_name := escape_markdown album.name
  let artists := escape_markdown (join_sep ", " album.artists)
  let release_date := escape_markdown album.release_date
  let genres := album_genres_field album
  "💿 *Album:* " ++ album_name ++ "\n" ++
  "👤 *Artis:* " ++ artists ++ "\n" ++
  "🗓️ *Tanggal Rilis:* " ++ release_date ++ "\n" ++
  "🎶 *Total Lagu:* " ++ toString album.total_tracks ++ "\n" ++
  "🏷️ *Genre:* " ++ genres ++ "\n\n" ++
  "[Buka di Spotify](" ++ album.spotify_url ++ ")"

/-- The outbound message `get_album_details` sends for the fetched album. -/
def get_album_details_message (album : AlbumRec) : OutMsg :=
  match album.images with
  | url :: _ => OutMsg.photo url (get_album_details_caption album)
  | [] => OutMsg.text (get_album_details_caption album)

/-- `get_album_details`: the `/getalbum` handler. `search_res` models
`sp.search(q=query, limit=1, type='album')`, `album_fetch` models
`sp.album(album_id)` keyed by the id it is called with. -/
def get_album_details (args : List String)
    (search_res : Except String (List AlbumRec))
    (album_fetch : String → Except String AlbumRec) : List OutMsg × List CatCall :=
  if args.isEmpty then
    ([OutMsg.text "Tolong berikan nama album. Contoh: /getalbum My Beautiful Dark Twisted Fantasy"], [])
  else
    let query := join_sep " " args
    let ack := OutMsg.text ("🔍 Mencari album '" ++ query ++ "'...")
    let searchCall := CatCall.search query "album" 1 0
    match search_res with
    | Except.error _ =>
        ([ack, OutMsg.text "Maaf, terjadi kesalahan saat mengambil detail album."], [searchCall])
    | Except.ok items =>
        match items with
        | [] =>
            ([ack, OutMsg.text ("Maaf, album *'" ++ escape_markdown query ++ "'* tidak ditemukan\\.")],
             [searchCall])
        | first :: _ =>
            match album_fetch first.id with
            | Except.error _ =>
                ([ack, OutMsg.text "Maaf, terjadi kesalahan saat mengambil detail album."],
                 [searchCall, CatCall.album first.id])
            | Except.ok album =>
                ([ack, get_album_details_message album],
                 [searchCall, CatCall.album first.id])

/-- `get_random_albums`: the `/randomalbum` handler. `random_char` and
`random_offset` model the values drawn from `random`, `search_res` the
outcome of the single album search. -/
def get_random_albums (random_char : Char) (random_offset : Nat)
    (search_res : Except String (List AlbumRec)) : List OutMsg × List CatCall :=
  let ack := OutMsg.text "🎲 Mengambil 5 album acak..."
  let call := CatCall.search ("year:2000-2025 track:" ++ String.mk [random_char]) "album" 5 random_offset
  match search_res with
  | Except.error _ =>
      ([ack, OutMsg.text "Maaf, terjadi kesalahan saat mengambil album acak."], [call])
  | Except.ok albums =>
      if albums.isEmpty then
        ([ack, OutMsg.text "Gagal mendapatkan album acak, coba lagi!"], [call])
      else
        (ack :: albums.map send_album_info, [call])

/-- `get_new_releases`: the `/getnewreleases` handler. Note that the source
loops straight over `results['albums']['items']` with no zero-result
check. -/
def get_new_releases
    (res : Except String (List AlbumRec)) : List OutMsg × List CatCall :=
  let ack := OutMsg.text "✨ Menampilkan 5 rilis album terbaru..."
  let call := CatCall.new_releases 5
  match res with
  | Except.error _ =>
      ([ack, OutMsg.text "Maaf, terjadi kesalahan saat mengambil rilis terbaru."], [call])
  | Except.ok albums =>
      (ack :: albums.map send_album_info, [call])

/-- `get_artist_details`: the `/getartist` handler. The source formats the
first item of the limit-1 search directly (there is no `sp.artist(id)`
detail fetch). -/
def get_artist_details (args : List String)
    (search_res : Except String (List ArtistRec)) : List OutMsg × List CatCall :=
  if args.isEmpty then
    ([OutMsg.text "Tolong berikan nama artis. Contoh: /getartist Tulus"], [])
  else
    let query := join_sep " " args
    let ack := OutMsg.text ("🔍 Mencari artis '" ++ query ++ "'...")
    let searchCall := CatCall.search query "artist" 1 0
    match search_res with
    | Except.error _ =>
        ([ack, OutMsg.text "Maaf, terjadi kesalahan saat mengambil detail artis."], [searchCall])
    | Except.ok items =>
        match items with
        | [] =>
            ([ack, OutMsg.text ("Maaf, artis *'" ++ escape_markdown query ++ "'* tidak ditemukan\\.")],
             [searchCall])
        | first :: _ =>
            ([ack, send_artist_info first], [searchCall])

/-- `get_random_artists`: the `/randomartist` handler. -/
def get_random_artists (random_char : Char) (random_offset : Nat)
    (search_res : Except String (List ArtistRec)) : List OutMsg × List CatCall :=
  let ack := OutMsg.text "🎲 Mengambil 5 artis acak..."
  let call := CatCall.search ("artist:" ++ String.mk [random_char]) "artist" 5 random_offset
  match search_res with
  | Except.error _ =>
      ([ack, OutMsg.text "Maaf, terjadi kesalahan saat mengambil artis acak."], [call])
  | Except.ok artists =>
      if artists.isEmpty then
        ([ack, OutMsg.text "Gagal mendapatkan artis acak, coba lagi!"], [call])
      else
        (ack :: artists.map send_artist_info, [call])

/-- `get_artist_albums`: the `/getartistalbums` handler. `albums_fetch`
models `sp.artist_albums(artist_id, album_type='album', limit=10)`. -/
def get_artist_albums (args : List String)
    (search_res : Except String (List ArtistRec))
    (albums_fetch : String → Except String (List AlbumRec)) : List OutMsg × List CatCall :=
  if args.isEmpty then
    ([OutMsg.text "Tolong berikan nama artis. Contoh: /getartistalbums Coldplay"], [])
  else
    let query := join_sep " " args
    let ack := OutMsg.text ("💿 Mencari album dari '" ++ query ++ "'...")
    let searchCall := CatCall.search query "artist" 1 0
    match search_res with
    | Except.error _ =>
        ([ack, OutMsg.text "Maaf, terjadi kesalahan saat mengambil album artis."], [searchCall])
    | Except.ok items =>
        match items with
        | [] =>
            ([ack, OutMsg.text ("Maaf, artis *'" ++ escape_markdown query ++ "'* tidak ditemukan\\.")],
             [searchCall])
        | first :: _ =>
            let fetchCall := CatCall.artist_albums first.id "album" 10
            match albums_fetch first.id with
            | Except.error _ =>
                ([ack, OutMsg.text "Maaf, terjadi kesalahan saat mengambil album artis."],
                 [searchCall, fetchCall])
            | Except.ok albums =>
                if albums.isEmpty then
                  ([ack, OutMsg.text ("Artis *'" ++ escape_markdown query ++ "'* tidak memiliki album\\.")],
                   [searchCall, fetchCall])
                else
                  (ack :: albums.map send_album_info, [searchCall, fetchCall])

/-- `get_artist_top_tracks`: the `/gettoptracks` handler. `tracks_fetch`
models `sp.artist_top_tracks(artist_id, country='ID')`. -/
def get_artist_top_tracks (args : List String)
    (search_res : Except String (List ArtistRec))
    (tracks_fetch : String → Except String (List TrackRec)) : List OutMsg × List CatCall :=
  if args.isEmpty then
    ([OutMsg.text "Tolong berikan nama artis. Contoh: /gettoptracks Queen"], [])
  else
    let query := join_sep " " args
    let ack := OutMsg.text ("🏆 Mencari lagu terpopuler dari '" ++ query ++ "'...")
    let searchCall := CatCall.search query "artist" 1 0
    match search_res with
    | Except.error _ =>
        ([ack, OutMsg.text "Maaf, terjadi kesalahan saat mengambil lagu terpopuler."], [searchCall])
    | Except.ok items =>
        match items with
        | [] =>
            ([ack, OutMsg.text ("Maaf, artis *'" ++ escape_markdown query ++ "'* tidak ditemukan\\.")],
             [searchCall])
        | first :: _ =>
            let fetchCall := CatCall.artist_top_tracks first.id "ID"
            match tracks_fetch first.id with
            | Except.error _ =>
                ([ack, OutMsg.text "Maaf, terjadi kesalahan saat mengambil lagu terpopuler."],
                 [searchCall, fetchCall])
            | Except.ok tracks =>
                if tracks.isEmpty then
                  ([ack, OutMsg.text ("Tidak dapat menemukan lagu terpopuler untuk *'" ++
                      escape_markdown query ++ "'*\\.")], [searchCall, fetchCall])
                else
                  (ack :: tracks.map send_track_info, [searchCall, fetchCall])

/-- `get_related_artists`: the `/getrelated` handler. `related_fetch`
models `sp.artist_related_artists(artist_id)`. On a non-empty result the
source sends a header naming the query and formats only the first five
related artists (`related_artists['artists'][:5]`). -/
def get_related_artists (args : List String)
    (search_res : Except String (List ArtistRec))
    (related_fetch : String → Except String (List ArtistRec)) : List OutMsg × List CatCall :=
  if args.isEmpty then
    ([OutMsg.text "Tolong berikan nama artis. Contoh: /getrelated Daft Punk"], [])
  else
    let query := join_sep " " args
    let ack := OutMsg.text ("🤝 Mencari artis yang terkait dengan '" ++ query ++ "'...")
    let searchCall := CatCall.search query "artist" 1 0
    match search_res with
    | Except.error _ =>
        ([ack, OutMsg.text "Maaf, terjadi kesalahan saat mengambil artis terkait."], [searchCall])
    | Except.ok items =>
        match items with
        | [] =>
            ([ack, OutMsg.text ("Maaf, artis *'" ++ escape_markdown query ++ "'* tidak ditemukan\\.")],
             [searchCall])
        | first :: _ =>
            let fetchCall := CatCall.artist_related_artists first.id
            match related_fetch first.id with
            | Except.error _ =>
                ([ack, OutMsg.text "Maaf, terjadi kesalahan saat mengambil artis terkait."],
                 [searchCall, fetchCall])
            | Except.ok related =>
                if related.isEmpty then
                  ([ack, OutMsg.text ("Tidak dapat menemukan artis terkait untuk *'" ++
                      escape_markdown query ++ "'*\\.")], [searchCall, fetchCall])
                else
                  (ack ::
                   OutMsg.text ("Berikut 5 artis yang mirip dengan *" ++ escape_markdown query ++ "*:") ::
                   (related.take 5).map send_artist_info,
                   [searchCall, fetchCall])

/-- Python truthiness of `os.getenv`: `None` and the empty string are falsy. -/
def py_truthy : Option String → Bool
  | none => false
  | some s => !(s = "")

/-- The module-level credential check:
`if not all([SPOTIPY_CLIENT_ID, SPOTIPY_CLIENT_SECRET]): raise ValueError(...)`. -/
def spotify_credentials_check (client_id client_secret : Option String) : Except String Unit :=
  if py_truthy client_id && py_truthy client_secret then Except.ok ()
  else Except.error "Pastikan SPOTIPY_CLIENT_ID dan SPOTIPY_CLIENT_SECRET sudah diatur di file .env Anda."

/-- The check at the top of `main`:
`if not TELEGRAM_TOKEN: raise ValueError(...)`. -/
def telegram_token_check (token : Option String) : Except String Unit :=
  if py_truthy token then Except.ok ()
  else Except.error "Pastikan TELEGRAM_TOKEN sudah diatur di file .env Anda."

/-- Process startup: the module-level Spotify credential check runs first
(at import time), then `main` checks the Telegram token, both before the
application is built and polling starts. -/
def process_startup (client_id client_secret token : Option String) : Except String Unit :=
  match spotify_credentials_check client_id client_secret with
  | Except.error e => Except.error e
  | Except.ok _ => telegram_token_check token

/-- The whole process: when startup fails no handler ever runs, so no
message is served; otherwise the served messages are whatever the handlers
produce. -/
def run_bot (client_id client_secret token : Option String)
    (served : List OutMsg) : List OutMsg :=
  match process_startup client_id client_secret token with
  | Except.error _ => []
  | Except.ok _ => served

/-!
Helper predicates and lemmas about MarkdownV2 escaping and substrings.
-/

/-- A MarkdownV2-sound piece of text: scanning left to right, a backslash
consumes the next character, and no special character appears bare. This is
what "escaped" means for a field interpolated into a caption. -/
def mdV2Clean : List Char → Bool
  | [] => true
  | [c] => !(decide (c ∈ escapeCharsV2))
  | c :: d :: rest =>
    if c = '\\' then mdV2Clean rest
    else if decide (c ∈ escapeCharsV2) then false
    else mdV2Clean (d :: rest)

/-- Substring test on character lists. -/
def containsSub (sub : List Char) : List Char → Bool
  | [] => sub.isEmpty
  | c :: rest => sub.isPrefixOf (c :: rest) || containsSub sub rest

theorem isPrefixOf_append_self (sub r : List Char) : sub.isPrefixOf (sub ++ r) = true := by
  induction sub with
  | nil => cases r <;> rfl
  | cons c l ih => simp [List.isPrefixOf, ih]

theorem containsSub_of_prefix (sub l : List Char) (h : sub.isPrefixOf l = true) :
    containsSub sub l = true := by
  cases l with
  | nil =>
    cases sub with
    | nil => rfl
    | cons c cs => simp [List.isPrefixOf] at h
  | cons c rest => simp [containsSub, h]

theorem containsSub_append_left (sub l r : List Char) (h : containsSub sub r = true) :
    containsSub sub (l ++ r) = true := by
  induction l with
  | nil => simpa using h
  | cons c l ih => simp [containsSub, ih]

theorem containsSub_append_self (sub r : List Char) :
    containsSub sub (sub ++ r) = true :=
  containsSub_of_prefix _ _ (isPrefixOf_append_self sub r)

theorem string_data_append (a b : String) : (a ++ b).data = a.data ++ b.data := rfl

/-- Every output of `escape_markdown` is MarkdownV2-sound: each special
character it contains is consumed by a preceding backslash. -/
theorem mdV2Clean_escape (l : List Char) : mdV2Clean (l.flatMap escape_char_v2) = true := by
  induction l with
  | nil => rfl
  | cons c l ih =>
    show mdV2Clean (escape_char_v2 c ++ l.flatMap escape_char_v2) = true
    by_cases hc : c ∈ escapeCharsV2
    · simp only [escape_char_v2, if_pos hc, List.cons_append, List.nil_append]
      simpa [mdV2Clean] using ih
    · have hbs : ¬ c = '\\' := by
        intro h
        exact hc (h ▸ (by decide : ('\\' : Char) ∈ escapeCharsV2))
      simp only [escape_char_v2, if_neg hc, List.cons_append, List.nil_append]
      cases h : l.flatMap escape_char_v2 with
      | nil => simp [mdV2Clean, hc]
      | cons d rest =>
        rw [h] at ih
        simpa [mdV2Clean, hc, hbs] using ih

/-!
Concrete records used by the examples and witnesses.
-/

/-- The artist of the spec's example: a catalog search for `Tulus`
returning one match named `Tulus*`. -/
def tulusArtist : ArtistRec :=
  { id := "id-tulus", name := "Tulus*", genres := ["indonesian pop"],
    popularity := 80, images := ["http://img.example/tulus.jpg"],
    spotify_url := "http://sp.example/tulus" }

/-- An artist with an empty genre list. -/
def noGenreArtist : ArtistRec :=
  { id := "id-a", name := "SomeArtist", genres := [], popularity := 10,
    images := [], spotify_url := "http://sp.example/a" }

/-- An album with an empty genre list. -/
def noGenreAlbum : AlbumRec :=
  { id := "id-b", name := "SomeAlbum", artists := ["SomeArtist"],
    release_date := "2020-01-01", total_tracks := 9, genres := [],
    images := [], spotify_url := "http://sp.example/b" }

/-!
Caption lemmas: every interpolated text field appears in its caption in
escaped form.
-/

theorem artist_caption_name_sub (a : ArtistRec) :
    containsSub (escape_markdown a.name).data (send_artist_info_caption a).data = true := by
  simp only [send_artist_info_caption, string_data_append, List.append_assoc]
  repeat
    first
      | exact containsSub_append_self _ _
      | apply containsSub_append_left

theorem artist_caption_genres_sub (a : ArtistRec) :
    containsSub (artist_genres_field a).data (send_artist_info_caption a).data = true := by
  simp only [send_artist_info_caption, string_data_append, List.append_assoc]
  repeat
    first
      | exact containsSub_append_self _ _
      | apply containsSub_append_left

theorem album_caption_name_sub (alb : AlbumRec) :
    containsSub (escape_markdown alb.name).data (send_album_info_caption alb).data = true := by
  simp only [send_album_info_caption, string_data_append, List.append_assoc]
  repeat
    first
      | exact containsSub_append_self _ _
      | apply containsSub_append_left

theorem album_caption_artists_sub (alb : AlbumRec) :
    containsSub (escape_markdown (join_sep ", " alb.artists)).data
      (send_album_info_caption alb).data = true := by
  simp only [send_album_info_caption, string_data_append, List.append_assoc]
  repeat
    first
      | exact containsSub_append_self _ _
      | apply containsSub_append_left

theorem album_caption_date_sub (alb : AlbumRec) :
    containsSub (escape_markdown alb.release_date).data
      (send_album_info_caption alb).data = true := by
  simp only [send_album_info_caption, string_data_append, List.append_assoc]
  repeat
    first
      | exact containsSub_append_self _ _
      | apply containsSub_append_left

theorem track_caption_name_sub (t : TrackRec) :
    containsSub (escape_markdown t.name).data (send_track_info_caption t).data = true := by
  simp only [send_track_info_caption, string_data_append, List.append_assoc]
  repeat
    first
      | exact containsSub_append_self _ _
      | apply containsSub_append_left

/-- C1: every user-supplied and catalog-supplied text field interpolated
into an outbound caption is escaped for MarkdownV2 before insertion: the
output of `escape_markdown` never contains a bare special character, each
caption carries its fields in escaped form, and for the get-artist command
with a catalog search returning one artist named `Tulus*` the caption
contains `Tulus\*` and no raw unescaped `Tulus*`. -/
theorem claim_C1_markdown_escape :
    (∀ s : String, mdV2Clean (escape_markdown s).data = true) ∧
    (∀ a : ArtistRec,
      containsSub (escape_markdown a.name).data (send_artist_info_caption a).data = true ∧
      containsSub (artist_genres_field a).data (send_artist_info_caption a).data = true) ∧
    (∀ alb : AlbumRec,
      containsSub (escape_markdown alb.name).data (send_album_info_caption alb).data = true ∧
      containsSub (escape_markdown (join_sep ", " alb.artists)).data
        (send_album_info_caption alb).data = true ∧
      containsSub (escape_markdown alb.release_date).data
        (send_album_info_caption alb).data = true) ∧
    (∀ t : TrackRec,
      containsSub (escape_markdown t.name).data (send_track_info_caption t).data = true) ∧
    (∃ cap : String,
      (get_artist_details ["Tulus"] (Except.ok [tulusArtist])).1 =
        [OutMsg.text "🔍 Mencari artis 'Tulus'...",
         OutMsg.photo "http://img.example/tulus.jpg" cap] ∧
      containsSub "Tulus\\*".data cap.data = true ∧
      containsSub "Tulus*".data cap.data = false) := by
  refine ⟨fun s => mdV2Clean_escape s.data,
    fun a => ⟨artist_caption_name_sub a, artist_caption_genres_sub a⟩,
    fun alb => ⟨album_caption_name_sub alb, album_caption_artists_sub alb,
      album_caption_date_sub alb⟩,
    fun t => track_caption_name_sub t,
    ⟨send_artist_info_caption tulusArtist, ?_, ?_, ?_⟩⟩
  · rfl
  · decide
  · decide

/-!
Genre fallback (C9).
-/

theorem artist_caption_genre_fallback_sub (a : ArtistRec) (h : a.genres = []) :
    containsSub ("🏷️ *Genre:* Tidak ada genre").data (send_artist_info_caption a).data = true := by
  have hg : artist_genres_field a = "Tidak ada genre" := by
    simp only [artist_genres_field, h]
    rfl
  have hT : ("🏷️ *Genre:* Tidak ada genre").data
      = ("🏷️ *Genre:* ").data ++ ("Tidak ada genre").data := by decide
  simp only [send_artist_info_caption, hg, string_data_append, List.append_assoc, hT]
  repeat
    first
      | (rw [← List.append_assoc]
         exact containsSub_of_prefix _ _ (isPrefixOf_append_self _ _))
      | apply containsSub_append_left

theorem album_caption_genre_fallback_sub (alb : AlbumRec) (h : alb.genres = []) :
    containsSub ("🏷️ *Genre:* Tidak ada genre").data (get_album_details_caption alb).data = true := by
  have hg : album_genres_field alb = "Tidak ada genre" := by
    simp only [album_genres_field, h]
    rfl
  have hT : ("🏷️ *Genre:* Tidak ada genre").data
      = ("🏷️ *Genre:* ").data ++ ("Tidak ada genre").data := by decide
  simp only [get_album_details_caption, hg, string_data_append, List.append_assoc, hT]
  repeat
    first
      | (rw [← List.append_assoc]
         exact containsSub_of_prefix _ _ (isPrefixOf_append_self _ _))
      | apply containsSub_append_left

/-- C9: an empty genre list renders as the fallback text `Tidak ada genre`
in the artist caption's genre field, and the same fallback applies to the
genre field of the album-detail caption. -/
theorem claim_C9_genre_fallback (a : ArtistRec) (alb : AlbumRec)
    (ha : a.genres = []) (hb : alb.genres = []) :
    artist_genres_field a = "Tidak ada genre" ∧
    album_genres_field alb = "Tidak ada genre" ∧
    containsSub ("🏷️ *Genre:* Tidak ada genre").data (send_artist_info_caption a).data = true ∧
    containsSub ("🏷️ *Genre:* Tidak ada genre").data (get_album_details_caption alb).data = true := by
  refine ⟨?_, ?_, artist_caption_genre_fallback_sub a ha, album_caption_genre_fallback_sub alb hb⟩
  · simp only [artist_genres_field, ha]
    rfl
  · simp only [album_genres_field, hb]
    rfl

/-- Witness for C9 at a concrete artist and album with empty genre lists. -/
theorem claim_C9_genre_fallback_witness :
    noGenreArtist.genres = [] ∧ noGenreAlbum.genres = [] ∧
    (artist_genres_field noGenreArtist = "Tidak ada genre" ∧
     album_genres_field noGenreAlbum = "Tidak ada genre" ∧
     containsSub ("🏷️ *Genre:* Tidak ada genre").data
       (send_artist_info_caption noGenreArtist).data = true ∧
     containsSub ("🏷️ *Genre:* Tidak ada genre").data
       (get_album_details_caption noGenreAlbum).data = true) :=
  ⟨rfl, rfl, claim_C9_genre_fallback noGenreArtist noGenreAlbum rfl rfl⟩

/-!
Empty-argument behaviour (C2).
-/

/-- C2 (amended): every argument-requiring handler except `/cari` replies
with its usage example and issues no catalog call on an empty argument;
`search_music` invoked as `/cari` with no arguments falls back to the raw
message text `/cari` and does issue a catalog search for it. -/
theorem claim_C2_empty_arg_usage :
    (∀ s f, get_album_details [] s f =
      ([OutMsg.text "Tolong berikan nama album. Contoh: /getalbum My Beautiful Dark Twisted Fantasy"], [])) ∧
    (∀ s, get_artist_details [] s =
      ([OutMsg.text "Tolong berikan nama artis. Contoh: /getartist Tulus"], [])) ∧
    (∀ s f, get_artist_albums [] s f =
      ([OutMsg.text "Tolong berikan nama artis. Contoh: /getartistalbums Coldplay"], [])) ∧
    (∀ s f, get_artist_top_tracks [] s f =
      ([OutMsg.text "Tolong berikan nama artis. Contoh: /gettoptracks Queen"], [])) ∧
    (∀ s f, get_related_artists [] s f =
      ([OutMsg.text "Tolong berikan nama artis. Contoh: /getrelated Daft Punk"], [])) ∧
    (∀ res, (search_music [] "/cari" res).2 = [CatCall.search "/cari" "track" 5 0]) := by
  refine ⟨fun s f => rfl, fun s => rfl, fun s f => rfl, fun s f => rfl, fun s f => rfl,
    fun res => ?_⟩
  cases res with
  | error e => rfl
  | ok tracks => cases tracks <;> rfl

/-- C2 fails as stated: `/cari` with an empty argument issues a catalog
search (for the raw message text `/cari`) and sends no usage reply. -/
theorem claim_C2_counterexample :
    (search_music [] "/cari" (Except.ok [])).2 = [CatCall.search "/cari" "track" 5 0] ∧
    OutMsg.text "Tolong berikan judul lagu atau nama artis untuk saya cari."
      ∉ (search_music [] "/cari" (Except.ok [])).1 := by
  decide

/-!
Zero-result behaviour (C3).
-/

/-- C3 (amended): a zero-result catalog response never raises and routes to
the handler's specific not-found/try-again reply in every list-producing
handler except `get_new_releases`, which sends nothing beyond its
acknowledgment. -/
theorem claim_C3_zero_results (a0 mt : String) (args : List String) (c : Char)
    (off : Nat) (artist : ArtistRec) (f : String → Except String AlbumRec) :
    (search_music (a0 :: args) mt (Except.ok [])).1 =
      [OutMsg.text ("🔍 Mencari lagu '" ++ join_sep " " (a0 :: args) ++ "' di Spotify..."),
       OutMsg.text ("Maaf, saya tidak dapat menemukan lagu untuk *'" ++
         escape_markdown (join_sep " " (a0 :: args)) ++ "'*\\. Coba kata kunci lain\\.")] ∧
    (get_album_details (a0 :: args) (Except.ok []) f).1 =
      [OutMsg.text ("🔍 Mencari album '" ++ join_sep " " (a0 :: args) ++ "'..."),
       OutMsg.text ("Maaf, album *'" ++ escape_markdown (join_sep " " (a0 :: args)) ++
         "'* tidak ditemukan\\.")] ∧
    (get_artist_details (a0 :: args) (Except.ok [])).1 =
      [OutMsg.text ("🔍 Mencari artis '" ++ join_sep " " (a0 :: args) ++ "'..."),
       OutMsg.text ("Maaf, artis *'" ++ escape_markdown (join_sep " " (a0 :: args)) ++
         "'* tidak ditemukan\\.")] ∧
    (get_random_albums c off (Except.ok [])).1 =
      [OutMsg.text "🎲 Mengambil 5 album acak...",
       OutMsg.text "Gagal mendapatkan album acak, coba lagi!"] ∧
    (get_random_artists c off (Except.ok [])).1 =
      [OutMsg.text "🎲 Mengambil 5 artis acak...",
       OutMsg.text "Gagal mendapatkan artis acak, coba lagi!"] ∧
    (get_artist_albums (a0 :: args) (Except.ok [artist]) (fun _ => Except.ok [])).1 =
      [OutMsg.text ("💿 Mencari album dari '" ++ join_sep " " (a0 :: args) ++ "'..."),
       OutMsg.text ("Artis *'" ++ escape_markdown (join_sep " " (a0 :: args)) ++
         "'* tidak memiliki album\\.")] ∧
    (get_artist_top_tracks (a0 :: args) (Except.ok [artist]) (fun _ => Except.ok [])).1 =
      [OutMsg.text ("🏆 Mencari lagu terpopuler dari '" ++ join_sep " " (a0 :: args) ++ "'..."),
       OutMsg.text ("Tidak dapat menemukan lagu terpopuler untuk *'" ++
         escape_markdown (join_sep " " (a0 :: args)) ++ "'*\\.")] ∧
    (get_related_artists (a0 :: args) (Except.ok [artist]) (fun _ => Except.ok [])).1 =
      [OutMsg.text ("🤝 Mencari artis yang terkait dengan '" ++ join_sep " " (a0 :: args) ++ "'..."),
       OutMsg.text ("Tidak dapat menemukan artis terkait untuk *'" ++
         escape_markdown (join_sep " " (a0 :: args)) ++ "'*\\.")] ∧
    (get_new_releases (Except.ok [])).1 =
      [OutMsg.text "✨ Menampilkan 5 rilis album terbaru..."] :=
  ⟨rfl, rfl, rfl, rfl, rfl, rfl, rfl, rfl, rfl⟩

/-- C3 fails as stated for the new-releases handler: on a zero-result
response it sends only its acknowledgment, no not-found/try-again reply. -/
theorem claim_C3_counterexample :
    (get_new_releases (Except.ok [])).1 =
      [OutMsg.text "✨ Menampilkan 5 rilis album terbaru..."] ∧
    (get_new_releases (Except.ok [])).1.length = 1 := by
  decide

/-!
Result-count caps (C4).
-/

/-- A concrete track for witnesses. -/
def sampleTrack : TrackRec :=
  { id := "t1", name := "Song", artists := ["SomeArtist"], album := noGenreAlbum,
    spotify_url := "http://sp.example/t" }

/-- C4: for each list handler, given a catalog response that respects the
limit the handler requested, the number of outbound result messages (the
messages after the acknowledgment) equals min(returned items, the
handler's cap): search-by-text 5, random-album 5, artist-albums 10. -/
theorem claim_C4_result_caps (a0 mt : String) (args : List String) (c : Char) (off : Nat)
    (tracks : List TrackRec) (albums artistAlbums : List AlbumRec) (artist : ArtistRec)
    (ht0 : tracks ≠ []) (ht : tracks.length ≤ 5)
    (ha0 : albums ≠ []) (ha : albums.length ≤ 5)
    (hb0 : artistAlbums ≠ []) (hb : artistAlbums.length ≤ 10) :
    (search_music (a0 :: args) mt (Except.ok tracks)).1.length = 1 + min tracks.length 5 ∧
    (get_random_albums c off (Except.ok albums)).1.length = 1 + min albums.length 5 ∧
    (get_artist_albums (a0 :: args) (Except.ok [artist])
        (fun _ => Except.ok artistAlbums)).1.length = 1 + min artistAlbums.length 10 := by
  have h1 : tracks.isEmpty = false := by
    cases tracks with
    | nil => exact absurd rfl ht0
    | cons t ts => rfl
  have h2 : albums.isEmpty = false := by
    cases albums with
    | nil => exact absurd rfl ha0
    | cons t ts => rfl
  have h3 : artistAlbums.isEmpty = false := by
    cases artistAlbums with
    | nil => exact absurd rfl hb0
    | cons t ts => rfl
  refine ⟨?_, ?_, ?_⟩
  · simp [search_music, h1, Nat.min_eq_left ht, Nat.add_comm]
  · simp [get_random_albums, h2, Nat.min_eq_left ha, Nat.add_comm]
  · simp [get_artist_albums, h3, Nat.min_eq_left hb, Nat.add_comm]

/-- Witness for C4 at concrete one-element responses. -/
theorem claim_C4_result_caps_witness :
    ([sampleTrack] ≠ ([] : List TrackRec) ∧ [noGenreAlbum] ≠ ([] : List AlbumRec)) ∧
    ((search_music ["q"] "" (Except.ok [sampleTrack])).1.length = 1 + min [sampleTrack].length 5 ∧
     (get_random_albums 'a' 7 (Except.ok [noGenreAlbum])).1.length = 1 + min [noGenreAlbum].length 5 ∧
     (get_artist_albums ["q"] (Except.ok [noGenreArtist])
        (fun _ => Except.ok [noGenreAlbum])).1.length = 1 + min [noGenreAlbum].length 10) :=
  ⟨⟨by decide, by decide⟩,
   claim_C4_result_caps "q" "" [] 'a' 7 [sampleTrack] [noGenreAlbum] [noGenreAlbum] noGenreArtist
     (by decide) (by decide) (by decide) (by decide) (by decide) (by decide)⟩

/-!
Best match and detail fetch (C5).
-/

/-- C5 (amended): with a non-empty argument and a non-empty limit-1 search
result, `get_album_details` selects the first item and performs a second,
full detail fetch keyed by that item's id before formatting, while
`get_artist_details` selects the first item and formats it directly with
no second fetch. -/
theorem claim_C5_best_match (a0 : String) (args : List String)
    (firstAlb : AlbumRec) (restAlb : List AlbumRec) (alb : AlbumRec)
    (firstArt : ArtistRec) (restArt : List ArtistRec) :
    get_album_details (a0 :: args) (Except.ok (firstAlb :: restAlb)) (fun _ => Except.ok alb) =
      ([OutMsg.text ("🔍 Mencari album '" ++ join_sep " " (a0 :: args) ++ "'..."),
        get_album_details_message alb],
       [CatCall.search (join_sep " " (a0 :: args)) "album" 1 0, CatCall.album firstAlb.id]) ∧
    get_artist_details (a0 :: args) (Except.ok (firstArt :: restArt)) =
      ([OutMsg.text ("🔍 Mencari artis '" ++ join_sep " " (a0 :: args) ++ "'..."),
        send_artist_info firstArt],
       [CatCall.search (join_sep " " (a0 :: args)) "artist" 1 0]) :=
  ⟨rfl, rfl⟩

/-- C5 fails as stated for the get-artist command: the handler issues only
the limit-1 search, no second detail fetch keyed by the found id. -/
theorem claim_C5_counterexample :
    (get_artist_details ["Tulus"] (Except.ok [tulusArtist])).2 =
      [CatCall.search "Tulus" "artist" 1 0] := by
  decide

/-!
Random-album empty result (C6).
-/

/-- C6 (amended): on a zero-item response the random-album handler produces
exactly one reply besides its provisional acknowledgment, namely
`Gagal mendapatkan album acak, coba lagi!`, sends no images, and issues
exactly one catalog call (no automatic re-query). -/
theorem claim_C6_random_album_empty (c : Char) (off : Nat) :
    get_random_albums c off (Except.ok []) =
      ([OutMsg.text "🎲 Mengambil 5 album acak...",
        OutMsg.text "Gagal mendapatkan album acak, coba lagi!"],
       [CatCall.search ("year:2000-2025 track:" ++ String.mk [c]) "album" 5 off]) ∧
    (get_random_albums c off (Except.ok [])).2.length = 1 :=
  ⟨rfl, rfl⟩

/-- C6 fails as stated: on a zero-item response the handler produces two
replies (the acknowledgment and the failure message), not exactly one. -/
theorem claim_C6_counterexample :
    (get_random_albums 'a' 0 (Except.ok [])).1.length = 2 ∧
    (get_random_albums 'a' 0 (Except.ok [])).1 ≠
      [OutMsg.text "Gagal mendapatkan album acak, coba lagi!"] := by
  decide

/-!
Exception boundary (C7).
-/

/-- C7: an exception from a catalog call is caught at the handler boundary
and answered with exactly one generic error message after the
acknowledgment; the handler returns normally and each catalog call is
attempted exactly once (no retry). -/
theorem claim_C7_exception_boundary (a0 mt e : String) (args : List String)
    (c : Char) (off : Nat) (firstAlb : AlbumRec)
    (falb : String → Except String AlbumRec) :
    search_music (a0 :: args) mt (Except.error e) =
      ([OutMsg.text ("🔍 Mencari lagu '" ++ join_sep " " (a0 :: args) ++ "' di Spotify..."),
        OutMsg.text "Maaf, terjadi kesalahan saat berkomunikasi dengan Spotify. Coba lagi nanti."],
       [CatCall.search (join_sep " " (a0 :: args)) "track" 5 0]) ∧
    get_album_details (a0 :: args) (Except.error e) falb =
      ([OutMsg.text ("🔍 Mencari album '" ++ join_sep " " (a0 :: args) ++ "'..."),
        OutMsg.text "Maaf, terjadi kesalahan saat mengambil detail album."],
       [CatCall.search (join_sep " " (a0 :: args)) "album" 1 0]) ∧
    get_album_details (a0 :: args) (Except.ok [firstAlb]) (fun _ => Except.error e) =
      ([OutMsg.text ("🔍 Mencari album '" ++ join_sep " " (a0 :: args) ++ "'..."),
        OutMsg.text "Maaf, terjadi kesalahan saat mengambil detail album."],
       [CatCall.search (join_sep " " (a0 :: args)) "album" 1 0, CatCall.album firstAlb.id]) ∧
    get_random_albums c off (Except.error e) =
      ([OutMsg.text "🎲 Mengambil 5 album acak...",
        OutMsg.text "Maaf, terjadi kesalahan saat mengambil album acak."],
       [CatCall.search ("year:2000-2025 track:" ++ String.mk [c]) "album" 5 off]) ∧
    get_new_releases (Except.error e) =
      ([OutMsg.text "✨ Menampilkan 5 rilis album terbaru...",
        OutMsg.text "Maaf, terjadi kesalahan saat mengambil rilis terbaru."],
       [CatCall.new_releases 5]) ∧
    get_artist_details (a0 :: args) (Except.error e) =
      ([OutMsg.text ("🔍 Mencari artis '" ++ join_sep " " (a0 :: args) ++ "'..."),
        OutMsg.text "Maaf, terjadi kesalahan saat mengambil detail artis."],
       [CatCall.search (join_sep " " (a0 :: args)) "artist" 1 0]) ∧
    get_random_artists c off (Except.error e) =
      ([OutMsg.text "🎲 Mengambil 5 artis acak...",
        OutMsg.text "Maaf, terjadi kesalahan saat mengambil artis acak."],
       [CatCall.search ("artist:" ++ String.mk [c]) "artist" 5 off]) ∧
    (get_artist_albums (a0 :: args) (Except.error e) (fun _ => Except.ok [])).1 =
      [OutMsg.text ("💿 Mencari album dari '" ++ join_sep " " (a0 :: args) ++ "'..."),
       OutMsg.text "Maaf, terjadi kesalahan saat mengambil album artis."] ∧
    (get_artist_top_tracks (a0 :: args) (Except.error e) (fun _ => Except.ok [])).1 =
      [OutMsg.text ("🏆 Mencari lagu terpopuler dari '" ++ join_sep " " (a0 :: args) ++ "'..."),
       OutMsg.text "Maaf, terjadi kesalahan saat mengambil lagu terpopuler."] ∧
    (get_related_artists (a0 :: args) (Except.error e) (fun _ => Except.ok [])).1 =
      [OutMsg.text ("🤝 Mencari artis yang terkait dengan '" ++ join_sep " " (a0 :: args) ++ "'..."),
       OutMsg.text "Maaf, terjadi kesalahan saat mengambil artis terkait."] :=
  ⟨rfl, rfl, rfl, rfl, rfl, rfl, rfl, rfl, rfl, rfl⟩

/-!
Startup secrets (C8).
-/

/-- Whether startup aborted with an error. -/
def startup_failed : Except String Unit → Bool
  | Except.error _ => true
  | Except.ok _ => false

/-- C8: when the Spotify client id, the client secret or the Telegram bot
token is absent from the environment, process startup fails with a fatal
error and no message is ever served. -/
theorem claim_C8_startup_secrets (cid cs tok : Option String)
    (h : cid = none ∨ cs = none ∨ tok = none) :
    startup_failed (process_startup cid cs tok) = true ∧
    ∀ served, run_bot cid cs tok served = [] := by
  have hs : startup_failed (process_startup cid cs tok) = true := by
    rcases h with h | h | h <;> subst h
    · rfl
    · cases hpc : py_truthy cid <;>
        simp [process_startup, spotify_credentials_check, startup_failed, hpc, py_truthy]
    · cases hsc : spotify_credentials_check cid cs with
      | error msg => simp [process_startup, hsc, startup_failed]
      | ok u =>
        simp [process_startup, hsc, telegram_token_check, startup_failed, py_truthy]
  refine ⟨hs, fun served => ?_⟩
  cases hp : process_startup cid cs tok with
  | error msg => simp [run_bot, hp]
  | ok u =>
    rw [hp] at hs
    simp [startup_failed] at hs

/-- Witness for C8 with the Spotify client id absent. -/
theorem claim_C8_startup_secrets_witness :
    ((none : Option String) = none ∨ (some "secret" : Option String) = none ∨
      (some "token" : Option String) = none) ∧
    (startup_failed (process_startup none (some "secret") (some "token")) = true ∧
     ∀ served, run_bot none (some "secret") (some "token") served = []) :=
  ⟨Or.inl rfl, claim_C8_startup_secrets none (some "secret") (some "token") (Or.inl rfl)⟩

/-!
Related artists: header and five-item cap (C10).
-/

/-- C10: with a non-empty related-artists result the handler first sends a
header naming the queried artist, then formats exactly the first five
related artists in catalog order; artists beyond the first five are
dropped. -/
theorem claim_C10_related_artists_cap (a0 : String) (args : List String)
    (firstArt r0 : ArtistRec) (restArt rs : List ArtistRec) :
    (get_related_artists (a0 :: args) (Except.ok (firstArt :: restArt))
        (fun _ => Except.ok (r0 :: rs))).1 =
      OutMsg.text ("🤝 Mencari artis yang terkait dengan '" ++ join_sep " " (a0 :: args) ++ "'...") ::
      OutMsg.text ("Berikut 5 artis yang mirip dengan *" ++
        escape_markdown (join_sep " " (a0 :: args)) ++ "*:") ::
      ((r0 :: rs).take 5).map send_artist_info ∧
    (((r0 :: rs).take 5).map send_artist_info).length = min (r0 :: rs).length 5 := by
  refine ⟨rfl, ?_⟩
  simp [List.length_map, List.length_take]
  omega
